import Mathlib

/-!
Formal model of the VTU Internship Watcher pipeline
(`internship_watcher.py`): record normalization
(`process_internship_data`), pagination (`get_all_internships`),
change detection and notification dispatch
(`check_for_new_internships`), and seen-state persistence
(`save_seen_internships`).

Modelling conventions:
* Raw upstream items (untyped JSON dicts in Python) are modelled as a
  structure of `Option` fields; `none` stands for an absent key or a
  `None` value.  Numeric upstream values (ids, stipend amounts) are
  modelled by their `str()` rendering, since the code only ever uses
  them via `str(...)` or f-string interpolation.  Python string
  truthiness (`or` fallbacks, `if stipend:`) is modelled by `pyTruthy`
  and `pyOr`; for strings, Python truthiness is non-emptiness.
* Python `.strip()` is modelled by `pyStrip` (remove leading and
  trailing whitespace), and slicing `[:n]` by `pyTake`.
* The wall clock (`datetime.now().isoformat()`) is passed in as an
  explicit `now : String` argument.
* Network effects are passed in explicitly: the upstream API is a
  function `feed : Nat → PageFetch`, and SMTP delivery failure is a
  predicate `fails : String → Bool` on recipient addresses.
* The unbounded `while True` pagination loop is modelled with an
  explicit fuel argument; theorems about it assume enough fuel to
  reach the loop's own stopping condition.
-/

/-- Python truthiness of an optional string value: absent (`None`) and
the empty string are falsy; every other string is truthy. -/
def pyTruthy : Option String → Bool
  | none => false
  | some s => s ≠ ""

/-- Python `a or b` on optional string values. -/
def pyOr (a b : Option String) : Option String :=
  if pyTruthy a then a else b

/-- Python `.strip()`: remove leading and trailing whitespace.
Implemented on the character list so the kernel can evaluate it
(`String.trim` is opaque to the kernel). -/
def pyStrip (s : String) : String :=
  ⟨((s.data.dropWhile Char.isWhitespace).reverse.dropWhile Char.isWhitespace).reverse⟩

/-- Python slicing `s[:n]`, kernel-evaluable. -/
def pyTake (s : String) (n : Nat) : String := ⟨s.data.take n⟩

/-- Nested `company` dict of a raw item: only its `name` key is read. -/
structure RawCompany where
  name : Option String
deriving Repr, DecidableEq

/-- Nested `city` dict of a raw item: only its `name` key is read. -/
structure RawCity where
  name : Option String
deriving Repr, DecidableEq

/-- One raw upstream item, as read by `process_internship_data`.
Each field models `data.get(key)`; `none` is an absent key or `None`.
Numeric values are modelled by their decimal string rendering
(except `is_job_offer`, which the code only uses through `bool(...)`
and is modelled as an optional natural number). -/
structure RawItem where
  id : Option String
  title : Option String
  company : Option RawCompany
  city : Option RawCity
  description : Option String
  workMode : Option String
  duration : Option String
  deadline : Option String
  type : Option String
  stipend : Option String
  internship_fee : Option String
  is_job_offer : Option Nat
  job_offer_package : Option String
  slug : Option String
deriving Repr, DecidableEq

/-- A raw item with every key absent; concrete test items are built
from it by overriding fields. -/
def emptyRaw : RawItem :=
  { id := none, title := none, company := none, city := none
  , description := none, workMode := none, duration := none
  , deadline := none, type := none, stipend := none
  , internship_fee := none, is_job_offer := none
  , job_offer_package := none, slug := none }

/-- The normalized listing dict built by `process_internship_data`. -/
structure Listing where
  id : String
  title : String
  company : String
  location : String
  description : String
  work_mode : String
  duration : String
  deadline : String
  type : String
  stipend : String
  job_offer : Bool
  job_package : String
  link : String
  scraped_at : String
deriving Repr, DecidableEq

/-- `self.website_base_url`. -/
def website_base_url : String := "https://vtu.internyet.in/internships"

/-- `(data.get('title') or '').strip()`. -/
def rawTitleTrim (d : RawItem) : String := pyStrip (d.title.getD "")

/-- `(data.get('company') or {}).get('name') or ''`, stripped. -/
def rawCompanyTrim (d : RawItem) : String :=
  pyStrip ((d.company.bind RawCompany.name).getD "")

/-- `process_internship_data`: normalizes one raw API item into a
listing dict, or returns `None` (here `none`) when the essential
`title`/`company` fields are missing.  The `now` argument models
`datetime.now().isoformat()`. -/
def process_internship_data (d : RawItem) (now : String) : Option Listing :=
  let internship_id := d.id.getD ""
  let title := rawTitleTrim d
  let company_name := rawCompanyTrim d
  let city_name := pyStrip ((d.city.bind RawCity.name).getD "")
  let description := pyStrip (d.description.getD "")
  let work_mode := pyStrip (d.workMode.getD "")
  let duration := pyStrip (d.duration.getD "")
  let deadline := pyStrip (d.deadline.getD "")
  let internship_type := pyStrip (d.type.getD "")
  let stipend := pyOr d.stipend d.internship_fee
  let job_offer := d.is_job_offer.getD 0
  let job_package := pyStrip (d.job_offer_package.getD "")
  let slug := d.slug.getD ""
  let link := if slug ≠ "" then website_base_url ++ "/" ++ slug else website_base_url
  let stipend_info := if pyTruthy stipend then "₹" ++ stipend.getD "" else ""
  let stipend_info :=
    if internship_type = "Paid" ∧ stipend_info = "" then "Paid"
    else if internship_type = "Free" then "Free"
    else stipend_info
  let processed : Listing :=
    { id := internship_id
    , title := title
    , company := company_name
    , location := city_name
    , description := if description ≠ "" then pyTake description 500 else ""
    , work_mode := work_mode
    , duration := if duration ≠ "" then duration ++ " months" else ""
    , deadline := deadline
    , type := internship_type
    , stipend := stipend_info
    , job_offer := job_offer != 0
    , job_package := job_package
    , link := link
    , scraped_at := now }
  if title ≠ "" ∧ company_name ≠ "" then some processed else none

/-! ## Notification renderer (`create_email_body`, subjects)

The HTML template strings follow the source; inter-element indentation
whitespace is elided, literal braces of the CSS are written `\x7b`/`\x7d`.
-/

/-- Head of the HTML template (the `Template` in `create_email_body`),
up to and including the header `<div>`; `$header_html` is the
substituted parameter. -/
def email_head (header_html : String) : String :=
  "<html>\n<head>\n<style>\n" ++
  "body \x7b font-family: Arial, sans-serif; line-height: 1.6; color: #333; \x7d\n" ++
  ".header \x7b background-color: #4CAF50; color: white; padding: 20px; text-align: center; \x7d\n" ++
  ".internship \x7b border: 1px solid #ddd; margin: 20px 0; padding: 15px; border-radius: 8px; background-color: #fafafa; \x7d\n" ++
  ".title \x7b color: #2196F3; font-size: 18px; font-weight: bold; margin-bottom: 10px; \x7d\n" ++
  ".company \x7b color: #FF9800; font-weight: bold; font-size: 16px; \x7d\n" ++
  ".location \x7b color: #9E9E9E; \x7d\n" ++
  ".description \x7b margin: 10px 0; \x7d\n" ++
  ".details \x7b display: flex; flex-wrap: wrap; gap: 15px; margin: 10px 0; \x7d\n" ++
  ".detail-item \x7b background-color: #e8f5e8; padding: 5px 10px; border-radius: 4px; font-size: 12px; \x7d\n" ++
  ".link \x7b background-color: #4CAF50; color: white; padding: 10px 20px; text-decoration: none; border-radius: 4px; display: inline-block; margin-top: 10px; \x7d\n" ++
  ".footer \x7b margin-top: 30px; padding: 20px; background-color: #f5f5f5; text-align: center; \x7d\n" ++
  ".paid \x7b background-color: #fff3cd; border-left: 4px solid #ffc107; \x7d\n" ++
  ".free \x7b background-color: #d1ecf1; border-left: 4px solid #17a2b8; \x7d\n" ++
  ".job-offer \x7b background-color: #d4edda; border-left: 4px solid #28a745; \x7d\n" ++
  "</style>\n</head>\n<body>\n<div class=\"header\">\n" ++ header_html ++ "\n</div>\n"

/-- Footer of the HTML template appended after the listing blocks. -/
def email_footer : String :=
  "<div class=\"footer\">\n" ++
  "<p>🤖 This is an automated notification from VTU Internship Watcher</p>\n" ++
  "<p>Visit <a href=\"https://vtu.internyet.in/internships\">VTU Internyet</a> for more details</p>\n" ++
  "<p style=\"font-size: 12px; color: #666;\">💡 Tip: Apply early! Popular internships fill up quickly.</p>\n" ++
  "</div>\n</body>\n</html>\n"

/-- CSS class of one listing block: `"internship"`, plus `" paid"` /
`" free"` from `type`, plus `" job-offer"` when flagged. -/
def listing_css_class (l : Listing) : String :=
  let c := "internship"
  let c := if l.type = "Paid" then c ++ " paid"
           else if l.type = "Free" then c ++ " free"
           else c
  if l.job_offer then c ++ " job-offer" else c

/-- One listing block of the email body (the per-internship f-string in
`create_email_body`); optional parts appear only when the corresponding
field is truthy, as in the source's inline conditionals. -/
def listing_html (l : Listing) : String :=
  "<div class=\"" ++ listing_css_class l ++ "\">\n" ++
  "<div class=\"title\">" ++ l.title ++ "</div>\n" ++
  "<div class=\"company\">🏢 " ++ l.company ++ "</div>\n" ++
  (if l.location ≠ "" then "<div class=\"location\">📍 " ++ l.location ++ "</div>\n" else "") ++
  "<div class=\"details\">\n" ++
  (if l.stipend ≠ "" then "<span class=\"detail-item\">💰 " ++ l.stipend ++ "</span>\n" else "") ++
  (if l.duration ≠ "" then "<span class=\"detail-item\">⏱️ " ++ l.duration ++ "</span>\n" else "") ++
  (if l.work_mode ≠ "" then "<span class=\"detail-item\">🏠 " ++ l.work_mode ++ "</span>\n" else "") ++
  (if l.deadline ≠ "" then "<span class=\"detail-item\">📅 Deadline: " ++ l.deadline ++ "</span>\n" else "") ++
  (if l.job_offer ∧ l.job_package ≠ "" then "<span class=\"detail-item\">💼 Job Offer: " ++ l.job_package ++ "</span>\n" else "") ++
  "</div>\n" ++
  (if l.description ≠ "" then "<div class=\"description\">" ++ l.description ++ "</div>\n" else "") ++
  (if l.link ≠ "" then "<a href=\"" ++ l.link ++ "\" class=\"link\" target=\"_blank\">Apply Now 🚀</a>\n" else "") ++
  "<div style=\"margin-top: 15px; font-size: 11px; color: #666; border-top: 1px solid #ddd; padding-top: 10px;\">" ++
  "ID: " ++ l.id ++ " | Found at: " ++ l.scraped_at ++ "</div>\n</div>\n"

/-- `create_email_body`: header variant chosen by whether the batch is
empty, then one block per listing, then the footer. -/
def create_email_body (internships : List Listing) : String :=
  let header_html :=
    if internships ≠ [] then
      "<h1>🎉 New VTU Internships Available!</h1><p>Found " ++
        toString internships.length ++ " new internship(s) that match your criteria</p>"
    else
      "<h1>ℹ️ No New VTU Internships Today</h1><p>We didn\x27t find new listings since yesterday. You’ll be notified when new ones appear.</p>"
  email_head header_html ++ String.join (internships.map listing_html) ++ email_footer

/-- The default subject computed in `send_email_notification`. -/
def default_subject (new_internships : List Listing) : String :=
  if new_internships ≠ [] then
    "🚨 " ++ toString new_internships.length ++ " New VTU Internship(s) Found!"
  else "ℹ️ No New VTU Internships Today"

/-- The explicit subject passed in the no-new branch of
`check_for_new_internships`. -/
def no_new_subject : String := "ℹ️ No New VTU Internships Today"

/-! ## Notification channel and dispatcher -/

/-- One call to `send_email_notification`, as observed from outside:
the recipient, subject and body of the message it built, and whether
the underlying SMTP transaction actually succeeded. -/
structure SentEmail where
  recipient : String
  subject : String
  body : String
  delivered : Bool
deriving Repr, DecidableEq

/-- The SMTP transaction (`smtplib.SMTP ... send_message`): raises for
recipients on which the channel fails. -/
def smtp_send (fails : String → Bool) (recipient : String) : Except String Unit :=
  if fails recipient then Except.error "SMTP delivery failed" else Except.ok ()

/-- `send_email_notification`: builds the message and performs the SMTP
transaction.  Its whole body is inside `try/except Exception`, which
logs and falls through, so the function never raises: an SMTP failure
only shows up as `delivered := false`. -/
def send_email_notification (fails : String → Bool) (new_internships : List Listing)
    (target : String) (subject : Option String) : SentEmail :=
  let subj := subject.getD (default_subject new_internships)
  let body := create_email_body new_internships
  match smtp_send fails target with
  | Except.ok _ => { recipient := target, subject := subj, body := body, delivered := true }
  | Except.error _ => { recipient := target, subject := subj, body := body, delivered := false }

/-- The per-subscriber dispatch loop of `check_for_new_internships`:
`for email in subscribers: try: send(...); sent += 1; except: log`.
Because `send_email_notification` catches all exceptions internally,
the `except` branch here is dead code and `sent` is incremented for
every subscriber; the loop returns the sends and the final `sent`. -/
def dispatch_loop (fails : String → Bool) (new_internships : List Listing)
    (subject : Option String) : List String → List SentEmail × Nat
  | [] => ([], 0)
  | e :: rest =>
    let mail := send_email_notification fails new_internships e subject
    let r := dispatch_loop fails new_internships subject rest
    (mail :: r.1, r.2 + 1)

/-! ## Pagination (`fetch_internships_from_api`, `get_all_internships`) -/

/-- Result of `fetch_internships_from_api(page)` as seen by
`get_all_internships`: `failure` stands for an empty dict or a dict
without a `data` key (every transport / decode / application error is
converted to `{}` inside `fetch_internships_from_api`); `ok` carries
the item list under `data` and the optional `last_page` field. -/
inductive PageFetch where
  | failure : PageFetch
  | ok (items : List RawItem) (last_page : Option Nat) : PageFetch

/-- The `while True` loop body of `get_all_internships`, with explicit
fuel, starting at the given page.  Returns the accumulated processed
listings and, for specification purposes, the list of page numbers
fetched, in order.  (The `time.sleep(1)` pacing delay has no effect on
the data and is not modelled.) -/
def get_all_internships_aux (feed : Nat → PageFetch) (now : String) :
    Nat → Nat → List Listing × List Nat
  | 0, _ => ([], [])
  | fuel + 1, page =>
    match feed page with
    | PageFetch.failure => ([], [page])
    | PageFetch.ok items last_page =>
      if items = [] then ([], [page])
      else
        let processed := items.filterMap (fun d => process_internship_data d now)
        if last_page.getD 1 ≤ page then (processed, [page])
        else
          let rest := get_all_internships_aux feed now fuel (page + 1)
          (processed ++ rest.1, page :: rest.2)

/-- `get_all_internships`: pages start at 1. -/
def get_all_internships (feed : Nat → PageFetch) (now : String) (fuel : Nat) :
    List Listing × List Nat :=
  get_all_internships_aux feed now fuel 1

/-! ## Change detection and the main run (`check_for_new_internships`)

`self.seen_internships` is a Python set of id strings; it is modelled
as a `List String` used only through membership and insertion, so all
set-level statements are phrased via `∈`.
-/

/-- The new-internship loop of `check_for_new_internships`: walks the
batch in order; a listing whose id is not in the seen set is appended
to the new list and its id added to the seen set in the same pass.
Returns the new listings (in encounter order) and the final seen set. -/
def detectNew : List Listing → List String → List Listing × List String
  | [], seen => ([], seen)
  | l :: rest, seen =>
    if l.id ∈ seen then detectNew rest seen
    else
      let r := detectNew rest (l.id :: seen)
      (l :: r.1, r.2)

/-- Observable events of one run, in order: each
`send_email_notification` call, and each `save_seen_internships` call
(with the seen set it persists). -/
inductive RunEvent where
  | sendAttempt (mail : SentEmail)
  | saveState (seen : List String)
deriving Repr, DecidableEq

/-- Outcome of one `check_for_new_internships` run: the event trace,
the `sent/total` pair of the "Notifications sent to sent/total"
log line (`none` when the per-subscriber loop did not run), the new
listings found, and the in-memory seen set at the end of the run. -/
structure RunResult where
  trace : List RunEvent
  reported : Option (Nat × Nat)
  newListings : List Listing
  seenAfter : List String
deriving Repr, DecidableEq

/-- `check_for_new_internships`: fetch all pages; abort (early
`return`) when no listings were fetched; otherwise detect new
listings, dispatch either the new-listings message or the no-new
acknowledgment to every subscriber (falling back to
`self.recipient_email` when the subscriber list is empty), and call
`save_seen_internships` — which the source does only in the branch
where new listings were found. -/
def check_for_new_internships (feed : Nat → PageFetch) (now : String)
    (subscribers : List String) (fails : String → Bool)
    (recipient_email : String) (seen0 : List String) (fuel : Nat) : RunResult :=
  let current_internships := (get_all_internships feed now fuel).1
  if current_internships = [] then
    { trace := [], reported := none, newListings := [], seenAfter := seen0 }
  else
    let d := detectNew current_internships seen0
    let new_internships := d.1
    let seen := d.2
    if new_internships ≠ [] then
      if subscribers ≠ [] then
        let sends := dispatch_loop fails new_internships none subscribers
        { trace := sends.1.map RunEvent.sendAttempt ++ [RunEvent.saveState seen]
        , reported := some (sends.2, subscribers.length)
        , newListings := new_internships, seenAfter := seen }
      else
        let mail := send_email_notification fails new_internships recipient_email none
        { trace := [RunEvent.sendAttempt mail, RunEvent.saveState seen]
        , reported := none
        , newListings := new_internships, seenAfter := seen }
    else
      if subscribers ≠ [] then
        let sends := dispatch_loop fails [] (some no_new_subject) subscribers
        { trace := sends.1.map RunEvent.sendAttempt
        , reported := some (sends.2, subscribers.length)
        , newListings := [], seenAfter := seen }
      else
        let mail := send_email_notification fails [] recipient_email (some no_new_subject)
        { trace := [RunEvent.sendAttempt mail]
        , reported := none
        , newListings := [], seenAfter := seen }

/-! ## Helper lemmas -/

/-- A listing with its normalization timestamp erased, for statements
about behaviour up to the wall clock. -/
def eraseTime (l : Listing) : Listing := { l with scraped_at := "" }

theorem process_map_eraseTime (d : RawItem) (n1 n2 : String) :
    (process_internship_data d n1).map eraseTime
      = (process_internship_data d n2).map eraseTime := by
  by_cases h : rawTitleTrim d ≠ "" ∧ rawCompanyTrim d ≠ ""
  · simp [process_internship_data, h, eraseTime]
  · simp [process_internship_data, h]

theorem process_map_id_now (d : RawItem) (n1 n2 : String) :
    (process_internship_data d n1).map Listing.id
      = (process_internship_data d n2).map Listing.id := by
  have h := process_map_eraseTime d n1 n2
  have e : ∀ n : String, (process_internship_data d n).map Listing.id
      = ((process_internship_data d n).map eraseTime).map Listing.id := by
    intro n
    cases process_internship_data d n <;> rfl
  rw [e n1, e n2, h]

theorem send_email_notification_eq (fails : String → Bool)
    (L : List Listing) (e : String) (subj : Option String) :
    send_email_notification fails L e subj
      = { recipient := e, subject := subj.getD (default_subject L)
        , body := create_email_body L, delivered := !fails e } := by
  unfold send_email_notification smtp_send
  by_cases h : fails e <;> simp [h]

theorem dispatch_loop_fst (fails : String → Bool) (L : List Listing)
    (subj : Option String) (subs : List String) :
    (dispatch_loop fails L subj subs).1
      = subs.map (fun e => send_email_notification fails L e subj) := by
  induction subs with
  | nil => rfl
  | cons e rest ih => simp [dispatch_loop, ih]

theorem dispatch_loop_snd (fails : String → Bool) (L : List Listing)
    (subj : Option String) (subs : List String) :
    (dispatch_loop fails L subj subs).2 = subs.length := by
  induction subs with
  | nil => rfl
  | cons e rest ih => simp [dispatch_loop, ih]

theorem detectNew_sublist (b : List Listing) (s : List String) :
    List.Sublist (detectNew b s).1 b := by
  induction b generalizing s with
  | nil => simp [detectNew]
  | cons l rest ih =>
    by_cases h : l.id ∈ s
    · simpa [detectNew, h] using (ih s).cons l
    · simpa [detectNew, h] using (ih (l.id :: s)).cons₂ l

theorem detectNew_mem_seen (b : List Listing) (s : List String) (x : String) :
    x ∈ (detectNew b s).2 ↔ x ∈ b.map Listing.id ∨ x ∈ s := by
  induction b generalizing s with
  | nil => simp [detectNew]
  | cons l rest ih =>
    by_cases h : l.id ∈ s
    · have h' : x = l.id → x ∈ s := fun hx => hx ▸ h
      simp only [detectNew, if_pos h, ih, List.map_cons, List.mem_cons]
      tauto
    · simp only [detectNew, if_neg h, ih, List.map_cons, List.mem_cons]
      tauto

theorem detectNew_all_seen (b : List Listing) (s : List String)
    (h : ∀ l ∈ b, l.id ∈ s) : detectNew b s = ([], s) := by
  induction b with
  | nil => rfl
  | cons l rest ih =>
    have hl : l.id ∈ s := h l (by simp)
    simp only [detectNew, if_pos hl]
    exact ih (fun l' hl' => h l' (by simp [hl']))

theorem detectNew_new_nil (b : List Listing) (s : List String)
    (h : (detectNew b s).1 = []) : (detectNew b s).2 = s := by
  induction b generalizing s with
  | nil => rfl
  | cons l rest ih =>
    by_cases hl : l.id ∈ s
    · simp only [detectNew, if_pos hl] at h ⊢
      exact ih s h
    · simp only [detectNew, if_neg hl] at h
      simp at h

theorem detectNew_countP_seen (b : List Listing) (s : List String) (x : String)
    (hx : x ∈ s) : (detectNew b s).1.countP (fun l => l.id == x) = 0 := by
  induction b generalizing s with
  | nil => simp [detectNew]
  | cons l rest ih =>
    by_cases hl : l.id ∈ s
    · simp only [detectNew, if_pos hl]
      exact ih s hx
    · have hne : (l.id == x) = false := by
        have : l.id ≠ x := fun he => hl (he ▸ hx)
        simp [this]
      simp only [detectNew, if_neg hl, List.countP_cons, hne]
      simp only [Bool.false_eq_true, if_false, Nat.add_zero]
      exact ih (l.id :: s) (by simp [hx])

theorem detectNew_countP_le_one (b : List Listing) (s : List String) (x : String) :
    (detectNew b s).1.countP (fun l => l.id == x) ≤ 1 := by
  induction b generalizing s with
  | nil => simp [detectNew]
  | cons l rest ih =>
    by_cases hl : l.id ∈ s
    · simp only [detectNew, if_pos hl]
      exact ih s
    · simp only [detectNew, if_neg hl, List.countP_cons]
      by_cases hx : l.id = x
      · have h0 := detectNew_countP_seen rest (l.id :: s) x (by simp [hx])
        rw [h0]
        simp [hx]
      · have hne : (l.id == x) = false := by simp [hx]
        rw [hne]
        simp only [Bool.false_eq_true, if_false, Nat.add_zero]
        exact ih (l.id :: s)

theorem detectNew_nodup_filter (b : List Listing) (s : List String)
    (h : (b.map Listing.id).Nodup) :
    (detectNew b s).1 = b.filter (fun l => decide (l.id ∉ s)) := by
  induction b generalizing s with
  | nil => rfl
  | cons l rest ih =>
    simp only [List.map_cons, List.nodup_cons] at h
    by_cases hl : l.id ∈ s
    · rw [List.filter_cons, if_neg (by simp [hl])]
      simp only [detectNew, if_pos hl]
      exact ih s h.2
    · rw [List.filter_cons, if_pos (by simp [hl])]
      simp only [detectNew, if_neg hl]
      rw [ih (l.id :: s) h.2]
      congr 1
      apply List.filter_congr
      intro l' hl'
      have hne : l'.id ≠ l.id := by
        intro he
        exact h.1 (he ▸ List.mem_map_of_mem Listing.id hl')
      simp [List.mem_cons, hne]

/-- The loop in `get_all_internships` stops at page `p` when the fetch
fails there, the page has no items, or the page is at or past the
declared last page. -/
def stopsHereB (feed : Nat → PageFetch) (p : Nat) : Bool :=
  match feed p with
  | PageFetch.failure => true
  | PageFetch.ok items last_page => items.isEmpty || decide (last_page.getD 1 ≤ p)

theorem get_aux_pages (feed : Nat → PageFetch) (now : String) :
    ∀ fuel s k : Nat, s ≤ k → k + 1 - s ≤ fuel →
    stopsHereB feed k = true →
    (∀ p, s ≤ p → p < k → stopsHereB feed p = false) →
    (get_all_internships_aux feed now fuel s).2 = List.range' s (k + 1 - s) := by
  intro fuel
  induction fuel with
  | zero =>
    intro s k hsk hfuel _ _
    omega
  | succ fuel ih =>
    intro s k hsk hfuel hstop hno
    by_cases hs : s = k
    · subst hs
      rw [show s + 1 - s = 1 from by omega]
      simp only [get_all_internships_aux]
      cases hf : feed s with
      | failure => rfl
      | ok items lp =>
        simp only [stopsHereB, hf] at hstop
        by_cases hi : items = []
        · simp [hi]
        · have hle : lp.getD 1 ≤ s := by
            simp [hi, List.isEmpty_iff] at hstop
            exact hstop
          simp [hi, hle]
    · have hslt : s < k := by omega
      have hsf := hno s (Nat.le_refl s) hslt
      simp only [get_all_internships_aux]
      cases hf : feed s with
      | failure => simp [stopsHereB, hf] at hsf
      | ok items lp =>
        simp only [stopsHereB, hf, Bool.or_eq_false_iff, List.isEmpty_eq_false,
          decide_eq_false_iff_not, not_le] at hsf
        have hgt : ¬ lp.getD 1 ≤ s := by omega
        have ihr := ih (s + 1) k (by omega) (by omega) hstop
          (fun p hp1 hp2 => hno p (by omega) hp2)
        simp only [hsf.1, if_neg hgt, if_false, ihr]
        rw [show k + 1 - s = (k - s) + 1 from by omega,
            show k + 1 - (s + 1) = k - s from by omega]
        rfl

/-- Abort branch of `check_for_new_internships`: the fetch yielded no
listings, so the run returns before the detector. -/
theorem check_eq_abort (feed : Nat → PageFetch) (now : String)
    (subscribers : List String) (fails : String → Bool) (recipient_email : String)
    (seen0 : List String) (fuel : Nat)
    (hc : (get_all_internships feed now fuel).1 = []) :
    check_for_new_internships feed now subscribers fails recipient_email seen0 fuel
      = { trace := [], reported := none, newListings := [], seenAfter := seen0 } := by
  simp only [check_for_new_internships]
  rw [if_pos hc]

/-- New-listings branch with a non-empty subscriber list. -/
theorem check_eq_new_subs (feed : Nat → PageFetch) (now : String)
    (subscribers : List String) (fails : String → Bool) (recipient_email : String)
    (seen0 : List String) (fuel : Nat)
    (hc : (get_all_internships feed now fuel).1 ≠ [])
    (hn : (detectNew (get_all_internships feed now fuel).1 seen0).1 ≠ [])
    (hs : subscribers ≠ []) :
    check_for_new_internships feed now subscribers fails recipient_email seen0 fuel
      = { trace := (dispatch_loop fails
              (detectNew (get_all_internships feed now fuel).1 seen0).1 none
              subscribers).1.map RunEvent.sendAttempt
            ++ [RunEvent.saveState (detectNew (get_all_internships feed now fuel).1 seen0).2]
        , reported := some ((dispatch_loop fails
              (detectNew (get_all_internships feed now fuel).1 seen0).1 none
              subscribers).2, subscribers.length)
        , newListings := (detectNew (get_all_internships feed now fuel).1 seen0).1
        , seenAfter := (detectNew (get_all_internships feed now fuel).1 seen0).2 } := by
  simp only [check_for_new_internships]
  rw [if_neg hc, if_pos hn, if_pos hs]

/-- New-listings branch with an empty subscriber list (fallback to
`self.recipient_email`). -/
theorem check_eq_new_nosubs (feed : Nat → PageFetch) (now : String)
    (fails : String → Bool) (recipient_email : String)
    (seen0 : List String) (fuel : Nat)
    (hc : (get_all_internships feed now fuel).1 ≠ [])
    (hn : (detectNew (get_all_internships feed now fuel).1 seen0).1 ≠ []) :
    check_for_new_internships feed now [] fails recipient_email seen0 fuel
      = { trace := [RunEvent.sendAttempt (send_email_notification fails
              (detectNew (get_all_internships feed now fuel).1 seen0).1
              recipient_email none)
            , RunEvent.saveState (detectNew (get_all_internships feed now fuel).1 seen0).2]
        , reported := none
        , newListings := (detectNew (get_all_internships feed now fuel).1 seen0).1
        , seenAfter := (detectNew (get_all_internships feed now fuel).1 seen0).2 } := by
  simp only [check_for_new_internships]
  rw [if_neg hc, if_pos hn, if_neg (by simp : ¬ ([] : List String) ≠ [])]

/-- No-new branch with a non-empty subscriber list: the daily summary
notice is dispatched and `save_seen_internships` is not called. -/
theorem check_eq_nonew_subs (feed : Nat → PageFetch) (now : String)
    (subscribers : List String) (fails : String → Bool) (recipient_email : String)
    (seen0 : List String) (fuel : Nat)
    (hc : (get_all_internships feed now fuel).1 ≠ [])
    (hn : (detectNew (get_all_internships feed now fuel).1 seen0).1 = [])
    (hs : subscribers ≠ []) :
    check_for_new_internships feed now subscribers fails recipient_email seen0 fuel
      = { trace := (dispatch_loop fails [] (some no_new_subject)
              subscribers).1.map RunEvent.sendAttempt
        , reported := some ((dispatch_loop fails [] (some no_new_subject)
              subscribers).2, subscribers.length)
        , newListings := []
        , seenAfter := (detectNew (get_all_internships feed now fuel).1 seen0).2 } := by
  simp only [check_for_new_internships]
  rw [if_neg hc, if_neg (by simp [hn]), if_pos hs]

/-- No-new branch with an empty subscriber list. -/
theorem check_eq_nonew_nosubs (feed : Nat → PageFetch) (now : String)
    (fails : String → Bool) (recipient_email : String)
    (seen0 : List String) (fuel : Nat)
    (hc : (get_all_internships feed now fuel).1 ≠ [])
    (hn : (detectNew (get_all_internships feed now fuel).1 seen0).1 = []) :
    check_for_new_internships feed now [] fails recipient_email seen0 fuel
      = { trace := [RunEvent.sendAttempt (send_email_notification fails []
              recipient_email (some no_new_subject))]
        , reported := none
        , newListings := []
        , seenAfter := (detectNew (get_all_internships feed now fuel).1 seen0).2 } := by
  simp only [check_for_new_internships]
  rw [if_neg hc, if_neg (by simp [hn]), if_neg (by simp : ¬ ([] : List String) ≠ [])]

theorem detectNew_fst_not_seen (b : List Listing) (s : List String) :
    ∀ l ∈ (detectNew b s).1, l.id ∉ s := by
  induction b generalizing s with
  | nil => simp [detectNew]
  | cons l rest ih =>
    by_cases hl : l.id ∈ s
    · simp only [detectNew, if_pos hl]
      exact ih s
    · simp only [detectNew, if_neg hl]
      intro l' hl'
      rcases List.mem_cons.mp hl' with rfl | hmem
      · exact hl
      · have := ih (l.id :: s) l' hmem
        exact fun hc => this (by simp [hc])

theorem rupee_append_ne (a : String) : ("₹" ++ a) ≠ "" := by
  intro h
  have hl := congrArg String.length h
  rw [String.length_append] at hl
  rw [show ("₹" : String).length = 1 from rfl] at hl
  simp at hl

/-! ## Concrete fixtures for witnesses and counterexamples -/

/-- A well-formed raw item with id `"42"`. -/
def rawBackend : RawItem :=
  { emptyRaw with
    id := some "42", title := some "Backend Intern",
    company := some ⟨some "Acme"⟩ }

/-- A raw item with a title but no company dict. -/
def rawNoCompany : RawItem := { emptyRaw with title := some "Backend Intern" }

/-- A raw item with a stipend amount and `type = "Free"`. -/
def rawFreeFee : RawItem :=
  { emptyRaw with
    title := some "Data Intern", company := some ⟨some "Acme"⟩,
    stipend := some "5000", type := some "Free" }

/-- A raw item with a stipend amount and `type = "Paid"`. -/
def rawPaidFee : RawItem :=
  { emptyRaw with
    title := some "Data Intern", company := some ⟨some "Acme"⟩,
    stipend := some "5000", type := some "Paid" }

/-- The listing `process_internship_data rawPaidFee "t"` produces. -/
def paidListing : Listing :=
  { id := "", title := "Data Intern", company := "Acme", location := ""
  , description := "", work_mode := "", duration := "", deadline := ""
  , type := "Paid", stipend := "₹5000", job_offer := false, job_package := ""
  , link := "https://vtu.internyet.in/internships", scraped_at := "t" }

/-- A well-formed raw item with no `id` key. -/
def rawAnon : RawItem :=
  { emptyRaw with
    title := some "ML Intern", company := some ⟨some "Beta"⟩ }

/-- The listing `process_internship_data rawAnon "t"` produces: its id
is the empty string. -/
def anonListing : Listing :=
  { id := "", title := "ML Intern", company := "Beta", location := ""
  , description := "", work_mode := "", duration := "", deadline := ""
  , type := "", stipend := "", job_offer := false, job_package := ""
  , link := "https://vtu.internyet.in/internships", scraped_at := "t" }

/-- A minimal listing with the given id, for detector examples. -/
def sampleListing (i : String) : Listing :=
  { id := i, title := "T", company := "C", location := ""
  , description := "", work_mode := "", duration := "", deadline := ""
  , type := "", stipend := "", job_offer := false, job_package := ""
  , link := website_base_url, scraped_at := "" }

/-- A feed with exactly one page holding one valid item. -/
def feedOne : Nat → PageFetch :=
  fun p => if p = 1 then PageFetch.ok [rawBackend] (some 1) else PageFetch.failure

/-- A feed on which every fetch fails. -/
def feedFail : Nat → PageFetch := fun _ => PageFetch.failure

/-- A feed on which every page (page 4 included) exists, is non-empty,
and declares page 3 to be the last page. -/
def feedFour : Nat → PageFetch := fun _ => PageFetch.ok [rawBackend] (some 3)

/-- Three subscriber addresses. -/
def subsABC : List String := ["a@example.com", "b@example.com", "c@example.com"]

/-- A delivery channel that fails exactly for the second subscriber. -/
def failsB : String → Bool := fun e => e == "b@example.com"

/-- The spec's detector example batch, ids `["1", "2", "3"]`. -/
def exBatch : List Listing := [sampleListing "1", sampleListing "2", sampleListing "3"]

/-! ## C1: stipend display fallback -/

/-- The truthy stipend-or-fee amount of a raw item
(`data.get('stipend') or data.get('internship_fee')`, `None` when
falsy). -/
def stipendAmount (d : RawItem) : Option String :=
  if pyTruthy (pyOr d.stipend d.internship_fee) then
    some ((pyOr d.stipend d.internship_fee).getD "")
  else none

/-- The stipend display as the claim states it: a present amount
always wins; otherwise the type-derived label. -/
def claimedStipendDisplay (amount : Option String) (ty : String) : String :=
  match amount with
  | some a => "₹" ++ a
  | none => if ty = "Paid" then "Paid" else if ty = "Free" then "Free" else ""

/-- The stipend display as the code computes it: `type = "Free"`
overrides a present amount (the `elif` is tested whenever the type is
not a guarded `"Paid"`), and only the `"Paid"` label is suppressed by
a present amount. -/
def amendedStipendDisplay (amount : Option String) (ty : String) : String :=
  if ty = "Free" then "Free"
  else
    match amount with
    | some a => "₹" ++ a
    | none => if ty = "Paid" then "Paid" else ""

/-- C1 counterexample: a raw item with `stipend = "5000"` and
`type = "Free"` is displayed as `"Free"`, not as the amount with a
currency prefix that the claimed three-tier fallback demands. -/
theorem c1_stipend_counterexample :
    (process_internship_data rawFreeFee "t").map Listing.stipend
        ≠ some (claimedStipendDisplay (stipendAmount rawFreeFee)
            (pyStrip (rawFreeFee.type.getD "")))
    ∧ (process_internship_data rawFreeFee "t").map Listing.stipend = some "Free" := by
  constructor
  · decide
  · decide

/-- C1 (amended): for every raw item accepted by the normalizer, the
stipend display follows the fallback in which a present amount takes
priority over the label "Paid" but not over "Free": if
`type == "Free"` the display is "Free" even when an amount is present;
otherwise a present amount is displayed with the currency prefix, else
`type == "Paid"` gives "Paid", else empty. -/
theorem c1_stipend_amended : ∀ (d : RawItem) (now : String) (l : Listing),
    process_internship_data d now = some l →
    l.stipend = amendedStipendDisplay (stipendAmount d) (pyStrip (d.type.getD "")) := by
  intro d now l h
  simp only [process_internship_data] at h
  by_cases hc : rawTitleTrim d ≠ "" ∧ rawCompanyTrim d ≠ ""
  · rw [if_pos hc] at h
    cases Option.some.inj h
    by_cases hfree : pyStrip (d.type.getD "") = "Free"
    · simp [amendedStipendDisplay, hfree]
    · by_cases hamt : pyTruthy (pyOr d.stipend d.internship_fee)
      · simp [amendedStipendDisplay, stipendAmount, hamt, hfree,
          rupee_append_ne ((pyOr d.stipend d.internship_fee).getD "")]
      · simp [amendedStipendDisplay, stipendAmount, hamt, hfree]
  · rw [if_neg hc] at h
    simp at h

/-- C1 witness: the amended fallback evaluated on a concrete paid item
with an amount: the amount wins over the "Paid" label. -/
theorem c1_stipend_amended_witness :
    process_internship_data rawPaidFee "t" = some paidListing
    ∧ paidListing.stipend
        = amendedStipendDisplay (stipendAmount rawPaidFee)
            (pyStrip (rawPaidFee.type.getD "")) :=
  ⟨by decide, c1_stipend_amended rawPaidFee "t" paidListing (by decide)⟩

/-! ## C5: determinism of the normalizer -/

/-- C5 counterexample: the normalizer reads the wall clock for
`scraped_at`, so two evaluations on the same raw item at different
times yield different Listings. -/
theorem c5_determinism_counterexample :
    process_internship_data rawBackend "2024-01-01T00:00:00"
      ≠ process_internship_data rawBackend "2024-01-02T00:00:00" := by
  decide

/-- C5 (amended): the normalizer is deterministic up to the
`scraped_at` timestamp: for every raw item, evaluations at any two
clock readings accept or reject identically and agree on every field
except `scraped_at`; apart from the clock it reads no state. -/
theorem c5_determinism_amended : ∀ (d : RawItem) (n1 n2 : String),
    (process_internship_data d n1).map eraseTime
      = (process_internship_data d n2).map eraseTime :=
  fun d n1 n2 => process_map_eraseTime d n1 n2

/-! ## C9: rejection rule -/

/-- C9: the normalizer returns a Listing iff both the title and the
company name are non-empty after trimming; no other field affects
acceptance. -/
theorem c9_rejection_rule : ∀ (d : RawItem) (now : String),
    (∃ l, process_internship_data d now = some l)
      ↔ (rawTitleTrim d ≠ "" ∧ rawCompanyTrim d ≠ "") := by
  intro d now
  by_cases h : rawTitleTrim d ≠ "" ∧ rawCompanyTrim d ≠ ""
  · simp [process_internship_data, h]
  · simp [process_internship_data, h]

/-! ## C10: id-less items share the empty-string identifier -/

/-- C10: a raw item without an `id` key is normalized to a Listing
whose identifier is `""`; consequently, once `""` is in the seen set
no id-less listing is ever reported again, at most one id-less listing
is reported in any single pass, and after any pass every encountered
identifier (hence `""`) is in the seen set. -/
theorem c10_idless_shared_id :
    (∀ (d : RawItem) (now : String) (l : Listing), d.id = none →
        process_internship_data d now = some l → l.id = "")
    ∧ (∀ (b : List Listing) (s : List String), "" ∈ s →
        (detectNew b s).1.countP (fun l => l.id == "") = 0)
    ∧ (∀ (b : List Listing) (s : List String),
        (detectNew b s).1.countP (fun l => l.id == "") ≤ 1)
    ∧ (∀ (b : List Listing) (s : List String) (l : Listing), l ∈ b →
        l.id ∈ (detectNew b s).2) := by
  refine ⟨?_, ?_, ?_, ?_⟩
  · intro d now l hid h
    simp only [process_internship_data] at h
    by_cases hc : rawTitleTrim d ≠ "" ∧ rawCompanyTrim d ≠ ""
    · rw [if_pos hc] at h
      cases Option.some.inj h
      simp [hid]
    · rw [if_neg hc] at h
      simp at h
  · intro b s h
    exact detectNew_countP_seen b s "" h
  · intro b s
    exact detectNew_countP_le_one b s ""
  · intro b s l hl
    exact (detectNew_mem_seen b s l.id).mpr (Or.inl (List.mem_map_of_mem Listing.id hl))

/-- C10 witness: the id-less item `rawAnon` gets identifier `""`; with
`""` already seen its listing is not counted new; two id-less listings
in one batch are reported at most once; and `""` lands in the final
seen set. -/
theorem c10_idless_shared_id_witness :
    (rawAnon.id = none ∧ process_internship_data rawAnon "t" = some anonListing
      ∧ anonListing.id = "")
    ∧ (detectNew [anonListing] [""]).1.countP (fun l => l.id == "") = 0
    ∧ (detectNew [anonListing, anonListing] []).1.countP (fun l => l.id == "") ≤ 1
    ∧ anonListing.id ∈ (detectNew [anonListing] []).2 :=
  ⟨⟨rfl, by decide, c10_idless_shared_id.1 rawAnon "t" anonListing rfl (by decide)⟩,
   c10_idless_shared_id.2.1 [anonListing] [""] (by decide),
   c10_idless_shared_id.2.2.1 [anonListing, anonListing] [],
   c10_idless_shared_id.2.2.2 [anonListing] [] anonListing (by decide)⟩

/-! ## C8: change detector -/

/-- C8 counterexample: with two batch entries bearing the same unseen
identifier, the detector returns only the first, not the full sublist
of entries whose identifier is absent from the loaded seen set. -/
theorem c8_detector_counterexample :
    (detectNew [sampleListing "3", sampleListing "3"] []).1
        ≠ [sampleListing "3", sampleListing "3"].filter
            (fun l => decide (l.id ∉ ([] : List String)))
    ∧ (detectNew [sampleListing "3", sampleListing "3"] []).1
        = [sampleListing "3"] := by
  constructor
  · decide
  · decide

/-- The amended claim's characterization, transcribed from its words
rather than from the code: walking the batch in order while carrying
the listings already walked past (`prior`), a listing is returned iff
its identifier is neither in the loaded seen set nor borne by an
earlier listing of the same batch. -/
def amendedNewListings (seen : List String) : List Listing → List Listing → List Listing
  | _, [] => []
  | prior, l :: rest =>
    if l.id ∉ seen ∧ l.id ∉ prior.map Listing.id
    then l :: amendedNewListings seen (prior ++ [l]) rest
    else amendedNewListings seen (prior ++ [l]) rest

theorem detectNew_eq_amended_aux : ∀ (b prior : List Listing) (s t : List String),
    (∀ x, x ∈ t ↔ x ∈ s ∨ x ∈ prior.map Listing.id) →
    (detectNew b t).1 = amendedNewListings s prior b := by
  intro b
  induction b with
  | nil =>
    intro prior s t _
    rfl
  | cons l rest ih =>
    intro prior s t hmem
    by_cases hl : l.id ∈ t
    · have hlst := (hmem l.id).mp hl
      have hcond : ¬ (l.id ∉ s ∧ l.id ∉ prior.map Listing.id) := by tauto
      simp only [detectNew, if_pos hl, amendedNewListings, if_neg hcond]
      apply ih (prior ++ [l]) s t
      intro x
      rw [hmem x]
      simp only [List.map_append, List.map_cons, List.map_nil, List.mem_append,
        List.mem_singleton]
      constructor
      · intro h
        rcases h with h | h
        · exact Or.inl h
        · exact Or.inr (Or.inl h)
      · intro h
        rcases h with h | h | rfl
        · exact Or.inl h
        · exact Or.inr h
        · exact hlst
    · have hcond : l.id ∉ s ∧ l.id ∉ prior.map Listing.id := by
        constructor
        · intro hx
          exact hl ((hmem l.id).mpr (Or.inl hx))
        · intro hx
          exact hl ((hmem l.id).mpr (Or.inr hx))
      simp only [detectNew, if_neg hl, amendedNewListings, if_pos hcond]
      congr 1
      apply ih (prior ++ [l]) s (l.id :: t)
      intro x
      simp only [List.mem_cons, hmem x, List.map_append, List.map_cons, List.map_nil,
        List.mem_append, List.mem_singleton]
      tauto

/-- For every batch — duplicate identifiers included — the detector
returns exactly the listings the amended claim describes. -/
theorem detectNew_eq_amended (b : List Listing) (s : List String) :
    (detectNew b s).1 = amendedNewListings s [] b :=
  detectNew_eq_amended_aux b [] s s (fun x => by simp)

/-- C8 (amended): for every batch and seen set the detector returns,
in encounter order, exactly the listings whose identifier is neither
in the loaded seen set nor borne by an earlier listing of the same
batch (`amendedNewListings`); when the batch identifiers are pairwise
distinct this is exactly the sublist whose identifier is not in the
seen set; the result is a sublist of the batch, all returned
identifiers were unseen, and every batch identifier is in the seen set
when the detector returns. -/
theorem c8_detector_amended : ∀ (batch : List Listing) (seen : List String),
    (detectNew batch seen).1 = amendedNewListings seen [] batch
    ∧ ((batch.map Listing.id).Nodup →
        (detectNew batch seen).1 = batch.filter (fun l => decide (l.id ∉ seen)))
    ∧ List.Sublist (detectNew batch seen).1 batch
    ∧ (∀ l ∈ (detectNew batch seen).1, l.id ∉ seen)
    ∧ (∀ x, x ∈ (detectNew batch seen).2 ↔ x ∈ batch.map Listing.id ∨ x ∈ seen) := by
  intro batch seen
  exact ⟨detectNew_eq_amended batch seen,
    fun h => detectNew_nodup_filter batch seen h,
    detectNew_sublist batch seen,
    detectNew_fst_not_seen batch seen,
    fun x => detectNew_mem_seen batch seen x⟩

/-- C8 witness: the exact characterization evaluated on the
duplicate-id batch (only the first `"3"` listing is returned), and the
spec's example: seen ids `{"1","2"}`, batch ids `["1","2","3"]`: the
new set is exactly the `"3"` listing and `"3"` joins the seen set. -/
theorem c8_detector_amended_witness :
    ((detectNew [sampleListing "3", sampleListing "3"] []).1
        = amendedNewListings [] [] [sampleListing "3", sampleListing "3"]
      ∧ amendedNewListings [] [] [sampleListing "3", sampleListing "3"]
        = [sampleListing "3"])
    ∧ ((exBatch.map Listing.id).Nodup
      ∧ (detectNew exBatch ["1", "2"]).1
          = exBatch.filter (fun l => decide (l.id ∉ (["1", "2"] : List String))))
    ∧ (detectNew exBatch ["1", "2"]).1 = [sampleListing "3"]
    ∧ ("3" ∈ (detectNew exBatch ["1", "2"]).2
        ↔ "3" ∈ exBatch.map Listing.id ∨ "3" ∈ (["1", "2"] : List String)) :=
  ⟨⟨(c8_detector_amended [sampleListing "3", sampleListing "3"] []).1, by decide⟩,
   ⟨by decide, (c8_detector_amended exBatch ["1", "2"]).2.1 (by decide)⟩,
   by decide,
   (c8_detector_amended exBatch ["1", "2"]).2.2.2.2 "3"⟩

/-! ## C7: pagination termination -/

/-- C7: pages are fetched in ascending order starting at 1, and
fetching stops exactly at the first page that reports itself as the
declared last page, yields zero items, or fails: the pages fetched are
precisely `1, …, k` where `k` is that first stopping page (given
enough fuel to reach it; the Python loop is unbounded). -/
theorem c7_pagination_termination : ∀ (feed : Nat → PageFetch) (now : String)
    (fuel k : Nat), 1 ≤ k → k ≤ fuel → stopsHereB feed k = true →
    (∀ p, 1 ≤ p → p < k → stopsHereB feed p = false) →
    (get_all_internships feed now fuel).2 = List.range' 1 k := by
  intro feed now fuel k h1 hfk hs hn
  have h := get_aux_pages feed now fuel 1 k h1 (by omega) hs hn
  rw [get_all_internships, h, show k + 1 - 1 = k from by omega]

/-- C7 witness: on a feed where every page (page 4 included) exists
and declares page 3 to be the last page, exactly pages `[1, 2, 3]` are
fetched. -/
theorem c7_pagination_termination_witness :
    (stopsHereB feedFour 3 = true
      ∧ (∀ p, 1 ≤ p → p < 3 → stopsHereB feedFour p = false)
      ∧ feedFour 4 = PageFetch.ok [rawBackend] (some 3))
    ∧ (get_all_internships feedFour "t" 10).2 = List.range' 1 3 :=
  ⟨⟨by decide, fun p h1 h2 => by interval_cases p <;> decide, rfl⟩,
   c7_pagination_termination feedFour "t" 10 3 (by decide) (by decide) (by decide)
     (fun p h1 h2 => by interval_cases p <;> decide)⟩

/-! ## C6: idempotence across runs -/

theorem get_aux_map_id (feed : Nat → PageFetch) (n1 n2 : String) :
    ∀ (fuel s : Nat),
    (get_all_internships_aux feed n1 fuel s).1.map Listing.id
      = (get_all_internships_aux feed n2 fuel s).1.map Listing.id := by
  intro fuel
  induction fuel with
  | zero => intro s; rfl
  | succ fuel ih =>
    intro s
    simp only [get_all_internships_aux]
    cases hf : feed s with
    | failure => rfl
    | ok items lp =>
      by_cases hi : items = []
      · simp [hi]
      · by_cases hl : lp.getD 1 ≤ s
        · simp only [if_neg hi, if_pos hl, List.map_filterMap]
          have he : (fun d => (process_internship_data d n1).map Listing.id)
              = (fun d => (process_internship_data d n2).map Listing.id) :=
            funext (fun d => process_map_id_now d n1 n2)
          rw [he]
        · simp only [if_neg hi, if_neg hl, List.map_append, List.map_filterMap]
          have he : (fun d => (process_internship_data d n1).map Listing.id)
              = (fun d => (process_internship_data d n2).map Listing.id) :=
            funext (fun d => process_map_id_now d n1 n2)
          rw [he, ih (s + 1)]

/-- The seen set after a non-aborted run is whatever the detector
produced. -/
theorem check_seenAfter_of_fetched (feed : Nat → PageFetch) (now : String)
    (subscribers : List String) (fails : String → Bool) (recipient_email : String)
    (seen0 : List String) (fuel : Nat)
    (hc : (get_all_internships feed now fuel).1 ≠ []) :
    (check_for_new_internships feed now subscribers fails recipient_email seen0 fuel).seenAfter
      = (detectNew (get_all_internships feed now fuel).1 seen0).2 := by
  simp only [check_for_new_internships]
  rw [if_neg hc]
  split_ifs <;> rfl

/-- The new listings of a non-aborted run are whatever the detector
produced. -/
theorem check_newListings_of_fetched (feed : Nat → PageFetch) (now : String)
    (subscribers : List String) (fails : String → Bool) (recipient_email : String)
    (seen0 : List String) (fuel : Nat)
    (hc : (get_all_internships feed now fuel).1 ≠ []) :
    (check_for_new_internships feed now subscribers fails recipient_email seen0 fuel).newListings
      = (detectNew (get_all_internships feed now fuel).1 seen0).1 := by
  simp only [check_for_new_internships]
  rw [if_neg hc]
  split_ifs with h1 h2
  · rfl
  · rfl
  · rw [not_not] at h1
    exact h1.symm
  · rw [not_not] at h1
    exact h1.symm

/-- C6: running the pipeline a second time against the unchanged feed,
starting from the seen set the first run left behind, finds no new
listings and leaves the seen set unchanged (the second run performs no
save at all, so even the persisted timestamp question does not arise;
only the normalization timestamps `n1`, `n2` may differ between the
two runs). -/
theorem c6_idempotent_runs : ∀ (feed : Nat → PageFetch) (fuel : Nat)
    (n1 n2 : String) (subs1 subs2 : List String) (fails1 fails2 : String → Bool)
    (fb1 fb2 : String) (seen0 : List String),
    (check_for_new_internships feed n2 subs2 fails2 fb2
        (check_for_new_internships feed n1 subs1 fails1 fb1 seen0 fuel).seenAfter
        fuel).newListings = []
    ∧ (check_for_new_internships feed n2 subs2 fails2 fb2
        (check_for_new_internships feed n1 subs1 fails1 fb1 seen0 fuel).seenAfter
        fuel).seenAfter
      = (check_for_new_internships feed n1 subs1 fails1 fb1 seen0 fuel).seenAfter := by
  intro feed fuel n1 n2 subs1 subs2 fails1 fails2 fb1 fb2 seen0
  have hid : (get_all_internships feed n2 fuel).1.map Listing.id
      = (get_all_internships feed n1 fuel).1.map Listing.id :=
    get_aux_map_id feed n2 n1 fuel 1
  by_cases h1 : (get_all_internships feed n1 fuel).1 = []
  · have h2 : (get_all_internships feed n2 fuel).1 = [] := by
      have : (get_all_internships feed n2 fuel).1.map Listing.id = [] := by
        rw [hid, h1]
        rfl
      exact List.map_eq_nil_iff.mp this
    rw [check_eq_abort feed n1 subs1 fails1 fb1 seen0 fuel h1,
        check_eq_abort feed n2 subs2 fails2 fb2 _ fuel h2]
    exact ⟨rfl, rfl⟩
  · have h2 : (get_all_internships feed n2 fuel).1 ≠ [] := by
      intro he
      apply h1
      apply List.map_eq_nil_iff.mp
      rw [← hid, he]
      rfl
    rw [check_seenAfter_of_fetched feed n1 subs1 fails1 fb1 seen0 fuel h1]
    have hmem : ∀ l ∈ (get_all_internships feed n2 fuel).1,
        l.id ∈ (detectNew (get_all_internships feed n1 fuel).1 seen0).2 := by
      intro l hl
      have hmap : l.id ∈ (get_all_internships feed n1 fuel).1.map Listing.id := by
        rw [← hid]
        exact List.mem_map_of_mem Listing.id hl
      exact (detectNew_mem_seen _ seen0 l.id).mpr (Or.inl hmap)
    have hdet2 := detectNew_all_seen (get_all_internships feed n2 fuel).1
      (detectNew (get_all_internships feed n1 fuel).1 seen0).2 hmem
    constructor
    · rw [check_newListings_of_fetched feed n2 subs2 fails2 fb2 _ fuel h2, hdet2]
    · rw [check_seenAfter_of_fetched feed n2 subs2 fails2 fb2 _ fuel h2, hdet2]

/-! ## C2: partial delivery -/

/-- Projects a send event to its message. -/
def evSend : RunEvent → Option SentEmail :=
  fun ev => match ev with
  | RunEvent.sendAttempt m => some m
  | RunEvent.saveState _ => none

/-- The messages a run handed to the notification channel, in order. -/
def sendsOf (r : RunResult) : List SentEmail := r.trace.filterMap evSend

/-- Recognizes a `save_seen_internships` event. -/
def isSaveEvent : RunEvent → Bool :=
  fun ev => match ev with
  | RunEvent.saveState _ => true
  | RunEvent.sendAttempt _ => false

theorem filterMap_evSend_sends (mails : List SentEmail) :
    (mails.map RunEvent.sendAttempt).filterMap evSend = mails := by
  induction mails with
  | nil => rfl
  | cons m rest ih => simp [evSend, ih]

theorem filterMap_evSend_append_save (mails : List SentEmail) (s : List String) :
    ((mails.map RunEvent.sendAttempt) ++ [RunEvent.saveState s]).filterMap evSend
      = mails := by
  rw [List.filterMap_append, filterMap_evSend_sends]
  simp [evSend]

theorem countP_save_sends (mails : List SentEmail) :
    (mails.map RunEvent.sendAttempt).countP isSaveEvent = 0 := by
  induction mails with
  | nil => rfl
  | cons m rest ih => simp [List.countP_cons, isSaveEvent, ih]

theorem dispatch_recipients (fails : String → Bool) (L : List Listing)
    (subj : Option String) (subs : List String) :
    (dispatch_loop fails L subj subs).1.map SentEmail.recipient = subs := by
  rw [dispatch_loop_fst, List.map_map]
  have h : (SentEmail.recipient ∘ fun e => send_email_notification fails L e subj)
      = fun e => e := by
    funext e
    simp [Function.comp, send_email_notification_eq]
  rw [h, List.map_id']

theorem dispatch_delivered (fails : String → Bool) (L : List Listing)
    (subj : Option String) (subs : List String) :
    (dispatch_loop fails L subj subs).1.countP SentEmail.delivered
      = subs.countP (fun e => !fails e) := by
  rw [dispatch_loop_fst, List.countP_map]
  have h : (SentEmail.delivered ∘ fun e => send_email_notification fails L e subj)
      = fun e => !fails e := by
    funext e
    simp [Function.comp, send_email_notification_eq]
  rw [h]

/-- C2 counterexample: with three subscribers and an SMTP channel that
fails for the second, the run still reports 3/3 sent (because
`send_email_notification` catches the failure internally) although
only two messages were actually delivered — not the claimed 2/3. -/
theorem c2_partial_delivery_counterexample :
    (check_for_new_internships feedOne "t" subsABC failsB "fb@example.com" [] 5).reported
        = some (3, 3)
    ∧ (sendsOf (check_for_new_internships feedOne "t" subsABC failsB
        "fb@example.com" [] 5)).countP SentEmail.delivered = 2
    ∧ (check_for_new_internships feedOne "t" subsABC failsB "fb@example.com" [] 5).reported
        ≠ some (2, 3) := by
  refine ⟨by decide, by decide, by decide⟩

/-- C2 (amended): per-recipient failures are isolated — every
subscriber is attempted, in order, and the run never raises — but the
reported count is always N/N because the notification function
swallows SMTP failures; the number actually delivered is the number of
recipients on which the channel does not fail and may be lower than
the reported count. -/
theorem c2_partial_delivery_amended : ∀ (feed : Nat → PageFetch) (now : String)
    (subs : List String) (fails : String → Bool) (fb : String)
    (seen0 : List String) (fuel : Nat),
    (get_all_internships feed now fuel).1 ≠ [] → subs ≠ [] →
    (check_for_new_internships feed now subs fails fb seen0 fuel).reported
        = some (subs.length, subs.length)
    ∧ (sendsOf (check_for_new_internships feed now subs fails fb seen0 fuel)).map
        SentEmail.recipient = subs
    ∧ (sendsOf (check_for_new_internships feed now subs fails fb seen0 fuel)).countP
        SentEmail.delivered = subs.countP (fun e => !fails e) := by
  intro feed now subs fails fb seen0 fuel hc hs
  by_cases hn : (detectNew (get_all_internships feed now fuel).1 seen0).1 = []
  · rw [check_eq_nonew_subs feed now subs fails fb seen0 fuel hc hn hs]
    refine ⟨by rw [dispatch_loop_snd], ?_, ?_⟩
    · simp only [sendsOf]
      rw [filterMap_evSend_sends, dispatch_recipients]
    · simp only [sendsOf]
      rw [filterMap_evSend_sends, dispatch_delivered]
  · rw [check_eq_new_subs feed now subs fails fb seen0 fuel hc hn hs]
    refine ⟨by rw [dispatch_loop_snd], ?_, ?_⟩
    · simp only [sendsOf]
      rw [filterMap_evSend_append_save, dispatch_recipients]
    · simp only [sendsOf]
      rw [filterMap_evSend_append_save, dispatch_delivered]

/-- C2 witness: the amended statement evaluated on the concrete
three-subscriber run with the channel failing on the second. -/
theorem c2_partial_delivery_amended_witness :
    ((get_all_internships feedOne "t" 5).1 ≠ [] ∧ subsABC ≠ [])
    ∧ ((check_for_new_internships feedOne "t" subsABC failsB "fb@example.com" [] 5).reported
          = some (subsABC.length, subsABC.length)
      ∧ (sendsOf (check_for_new_internships feedOne "t" subsABC failsB
          "fb@example.com" [] 5)).map SentEmail.recipient = subsABC
      ∧ (sendsOf (check_for_new_internships feedOne "t" subsABC failsB
          "fb@example.com" [] 5)).countP SentEmail.delivered
          = subsABC.countP (fun e => !failsB e)) :=
  ⟨⟨by decide, by decide⟩,
   c2_partial_delivery_amended feedOne "t" subsABC failsB "fb@example.com" [] 5
     (by decide) (by decide)⟩

/-! ## C3: persistence of the seen state -/

/-- C3 counterexample: a run that fetches listings but finds none new
dispatches the daily notice and then never calls
`save_seen_internships` — the state is persisted zero times, not
exactly once. -/
theorem c3_persistence_counterexample :
    (check_for_new_internships feedOne "t" ["s@example.com"] (fun _ => false)
        "fb@example.com" ["42"] 5).trace.countP isSaveEvent = 0
    ∧ ¬ ((check_for_new_internships feedOne "t" ["s@example.com"] (fun _ => false)
        "fb@example.com" ["42"] 5).trace.countP isSaveEvent = 1) := by
  refine ⟨by decide, by decide⟩

/-- C3 (amended): the seen state is persisted exactly once, after all
dispatches and regardless of per-recipient failures, in runs that
discover at least one new listing; a run whose fetch yields no
listings aborts before the detector with no events and an unchanged
seen set; and a run with listings but none new performs no save at all
(its seen set is unchanged anyway). -/
theorem c3_persistence_amended : ∀ (feed : Nat → PageFetch) (now : String)
    (subs : List String) (fails : String → Bool) (fb : String)
    (seen0 : List String) (fuel : Nat),
    ((get_all_internships feed now fuel).1 = [] →
      (check_for_new_internships feed now subs fails fb seen0 fuel).trace = []
      ∧ (check_for_new_internships feed now subs fails fb seen0 fuel).seenAfter = seen0)
    ∧ ((get_all_internships feed now fuel).1 ≠ [] →
        (detectNew (get_all_internships feed now fuel).1 seen0).1 ≠ [] →
      (check_for_new_internships feed now subs fails fb seen0 fuel).trace.countP
          isSaveEvent = 1
      ∧ (check_for_new_internships feed now subs fails fb seen0 fuel).trace.getLast?
          = some (RunEvent.saveState
              (check_for_new_internships feed now subs fails fb seen0 fuel).seenAfter))
    ∧ ((get_all_internships feed now fuel).1 ≠ [] →
        (detectNew (get_all_internships feed now fuel).1 seen0).1 = [] →
      (check_for_new_internships feed now subs fails fb seen0 fuel).trace.countP
          isSaveEvent = 0
      ∧ (check_for_new_internships feed now subs fails fb seen0 fuel).seenAfter
          = seen0) := by
  intro feed now subs fails fb seen0 fuel
  refine ⟨?_, ?_, ?_⟩
  · intro hc
    rw [check_eq_abort feed now subs fails fb seen0 fuel hc]
    exact ⟨rfl, rfl⟩
  · intro hc hn
    by_cases hs : subs = []
    · subst hs
      rw [check_eq_new_nosubs feed now fails fb seen0 fuel hc hn]
      refine ⟨?_, rfl⟩
      simp [List.countP_cons, isSaveEvent]
    · rw [check_eq_new_subs feed now subs fails fb seen0 fuel hc hn hs]
      constructor
      · rw [List.countP_append, countP_save_sends]
        simp [List.countP_cons, isSaveEvent]
      · rw [List.getLast?_concat]
  · intro hc hn
    have hseen := detectNew_new_nil (get_all_internships feed now fuel).1 seen0 hn
    by_cases hs : subs = []
    · subst hs
      rw [check_eq_nonew_nosubs feed now fails fb seen0 fuel hc hn]
      exact ⟨by simp [List.countP_cons, isSaveEvent], hseen⟩
    · rw [check_eq_nonew_subs feed now subs fails fb seen0 fuel hc hn hs]
      exact ⟨by rw [countP_save_sends], hseen⟩

/-- C3 witness: a concrete run that finds one new listing saves the
seen state exactly once, as the final event after dispatch. -/
theorem c3_persistence_amended_witness :
    ((get_all_internships feedOne "t" 5).1 ≠ []
      ∧ (detectNew (get_all_internships feedOne "t" 5).1 []).1 ≠ [])
    ∧ ((check_for_new_internships feedOne "t" ["s@example.com"] (fun _ => false)
          "fb@example.com" [] 5).trace.countP isSaveEvent = 1
      ∧ (check_for_new_internships feedOne "t" ["s@example.com"] (fun _ => false)
          "fb@example.com" [] 5).trace.getLast?
          = some (RunEvent.saveState
              (check_for_new_internships feedOne "t" ["s@example.com"]
                (fun _ => false) "fb@example.com" [] 5).seenAfter)) :=
  ⟨⟨by decide, by decide⟩,
   (c3_persistence_amended feedOne "t" ["s@example.com"] (fun _ => false)
     "fb@example.com" [] 5).2.1 (by decide) (by decide)⟩

/-! ## C4: empty-batch acknowledgment -/

/-- C4 counterexample: a run whose fetch yields nothing has an empty
new set but dispatches no message at all — the early `return` skips
the acknowledgment. -/
theorem c4_empty_batch_counterexample :
    (check_for_new_internships feedFail "t" ["s@example.com"] (fun _ => false)
        "fb@example.com" [] 5).newListings = []
    ∧ (check_for_new_internships feedFail "t" ["s@example.com"] (fun _ => false)
        "fb@example.com" [] 5).trace = [] :=
  ⟨rfl, rfl⟩

/-- C4 (amended): in every run whose fetch yields at least one listing
and whose new set is empty, exactly one rendered message — the fixed
no-new subject with the empty-batch body variant — is dispatched to
every subscriber (or to the fallback recipient when the subscriber
list is empty); a run whose fetch yields nothing dispatches nothing. -/
theorem c4_empty_batch_amended : ∀ (feed : Nat → PageFetch) (now : String)
    (subs : List String) (fails : String → Bool) (fb : String)
    (seen0 : List String) (fuel : Nat),
    (get_all_internships feed now fuel).1 ≠ [] →
    (detectNew (get_all_internships feed now fuel).1 seen0).1 = [] →
    (check_for_new_internships feed now subs fails fb seen0 fuel).trace
      = if subs = []
        then [RunEvent.sendAttempt
              { recipient := fb, subject := no_new_subject
              , body := create_email_body [], delivered := !fails fb }]
        else subs.map (fun e => RunEvent.sendAttempt
              { recipient := e, subject := no_new_subject
              , body := create_email_body [], delivered := !fails e }) := by
  intro feed now subs fails fb seen0 fuel hc hn
  by_cases hs : subs = []
  · subst hs
    rw [check_eq_nonew_nosubs feed now fails fb seen0 fuel hc hn, if_pos rfl,
      send_email_notification_eq]
    rfl
  · rw [check_eq_nonew_subs feed now subs fails fb seen0 fuel hc hn hs, if_neg hs,
      dispatch_loop_fst, List.map_map]
    have h : (RunEvent.sendAttempt ∘
        fun e => send_email_notification fails [] e (some no_new_subject))
        = fun e => RunEvent.sendAttempt
            { recipient := e, subject := no_new_subject
            , body := create_email_body [], delivered := !fails e } := by
      funext e
      simp [Function.comp, send_email_notification_eq]
    rw [h]

/-- C4 witness: a concrete two-subscriber run with no new listings
dispatches exactly the two no-new acknowledgment messages. -/
theorem c4_empty_batch_amended_witness :
    ((get_all_internships feedOne "t" 5).1 ≠ []
      ∧ (detectNew (get_all_internships feedOne "t" 5).1 ["42"]).1 = [])
    ∧ (check_for_new_internships feedOne "t" ["s1@example.com", "s2@example.com"]
          (fun _ => false) "fb@example.com" ["42"] 5).trace
      = if (["s1@example.com", "s2@example.com"] : List String) = []
        then [RunEvent.sendAttempt
              { recipient := "fb@example.com", subject := no_new_subject
              , body := create_email_body [], delivered := !(fun _ => false) "fb@example.com" }]
        else ["s1@example.com", "s2@example.com"].map (fun e => RunEvent.sendAttempt
              { recipient := e, subject := no_new_subject
              , body := create_email_body [], delivered := !(fun _ => false) e }) :=
  ⟨⟨by decide, by decide⟩,
   c4_empty_batch_amended feedOne "t" ["s1@example.com", "s2@example.com"]
     (fun _ => false) "fb@example.com" ["42"] 5 (by decide) (by decide)⟩
